import Mathlib

/-!
Verification of the multi-agent cloud-architecture planning pipeline
(`Test Agent Orchestration for Cloud Architecture Planning.py`).

The Python source is shallowly embedded below: every class method that the
claims touch becomes a pure Lean function over an explicit data model.
Python string operations are modelled by `pyLower` (character-wise
`str.lower`) and `pyIn` (the substring test `needle in hay`); Python
`float` confidence scores are modelled as rationals (all scores in the
source are exact decimal literals that are only stored and copied, never
computed with).
-/

namespace CloudPlanning

/-- Model of Python `str.lower()`: character-wise basic-latin lowering. -/
def pyLower (s : String) : String := ⟨s.data.map Char.toLower⟩

/-- Boolean substring test on character lists, modelling Python `in` on `str`:
`pyInChars n h` is true iff `n` occurs contiguously inside `h` (the empty
needle occurs in everything). -/
def pyInChars (needle : List Char) : List Char → Bool
  | [] => needle.isPrefixOf []
  | c :: cs => needle.isPrefixOf (c :: cs) || pyInChars needle cs

/-- Model of Python `needle in hay` for strings. -/
def pyIn (needle hay : String) : Bool := pyInChars needle.data hay.data

/-- `ArchitectureType` enum of the source. -/
inductive ArchitectureType where
  | ECOMMERCE
  | CHATBOT
  | EXPENSE_TRACKER
deriving DecidableEq, Repr

/-- `CloudProvider` enum of the source. -/
inductive CloudProvider where
  | AWS
  | AZURE
  | GCP
deriving DecidableEq, Repr

/-- A heterogeneous Python value as used in `performance_needs` dicts
(the source stores only strings and ints there). -/
inductive PyVal where
  | str : String → PyVal
  | int : Int → PyVal
deriving DecidableEq, Repr

/-- `BusinessRequirement` dataclass of the source. -/
structure BusinessRequirement where
  description : String
  priority : Nat
  category : String
  constraints : List String
deriving DecidableEq, Repr

/-- `TechnicalRequirement` dataclass of the source. -/
structure TechnicalRequirement where
  component : String
  requirements : List String
  dependencies : List String
  performance_needs : List (String × PyVal)
deriving DecidableEq, Repr

/-- `CloudService` dataclass of the source. -/
structure CloudService where
  name : String
  provider : CloudProvider
  service_type : String
  description : String
  cost_estimate : String
  scalability : String
  security_features : List String
deriving DecidableEq, Repr

/-- `ArchitectureRecommendation` dataclass of the source. -/
structure ArchitectureRecommendation where
  architecture_type : ArchitectureType
  services : List CloudService
  deployment_strategy : String
  cost_estimate : String
  security_considerations : List String
  scalability_plan : String
  monitoring_strategy : String
  confidence_score : ℚ
deriving DecidableEq, Repr

/-- The `requirements` dict built by `RequirementsAnalyzer.analyze_requirements`
(keys `business_requirements`, `technical_requirements`, `constraints`,
`success_metrics`). -/
structure Requirements where
  business_requirements : List BusinessRequirement
  technical_requirements : List TechnicalRequirement
  constraints : List String
  success_metrics : List String
deriving DecidableEq, Repr

/-- The initial all-empty `requirements` dict of `analyze_requirements`,
returned unchanged when no keyword branch matches. -/
def emptyRequirements : Requirements :=
  { business_requirements := []
    technical_requirements := []
    constraints := []
    success_metrics := [] }

/-- The requirements produced by the `"ecommerce" in description` branch. -/
def ecommerceRequirements : Requirements :=
  { business_requirements :=
      [ ⟨"Handle 1000 daily users", 5, "scalability", ["high_availability"]⟩
      , ⟨"Secure payment processing", 5, "security", ["PCI_DSS_compliance"]⟩
      , ⟨"Product catalog management", 4, "functionality", ["search_capability"]⟩
      , ⟨"Shopping cart functionality", 4, "functionality", ["session_management"]⟩
      , ⟨"Admin dashboard", 3, "functionality", ["user_management"]⟩ ]
    technical_requirements :=
      [ ⟨"web_application", ["responsive_design", "mobile_support"], [], [("response_time", .str "<2s")]⟩
      , ⟨"database", ["ACID_compliance", "backup_recovery"], ["web_application"], [("concurrent_users", .int 1000)]⟩
      , ⟨"payment_gateway", ["PCI_compliance", "encryption"], ["web_application"], [("transaction_volume", .str "high")]⟩
      , ⟨"file_storage", ["image_optimization", "CDN"], ["web_application"], [("storage_capacity", .str "unlimited")]⟩ ]
    constraints := ["budget_conscious", "time_to_market"]
    success_metrics := ["user_satisfaction", "conversion_rate", "uptime"] }

/-- The requirements produced by the `"chatbot" in description` branch. -/
def chatbotRequirements : Requirements :=
  { business_requirements :=
      [ ⟨"Handle 500+ conversations daily", 5, "scalability", ["real_time_processing"]⟩
      , ⟨"CRM integration", 4, "integration", ["api_compatibility"]⟩
      , ⟨"Human escalation", 3, "functionality", ["seamless_handoff"]⟩
      , ⟨"Multi-language support", 3, "functionality", ["internationalization"]⟩ ]
    technical_requirements :=
      [ ⟨"ai_service", ["natural_language_processing", "sentiment_analysis"], [], [("response_time", .str "<1s")]⟩
      , ⟨"conversation_storage", ["real_time_access", "privacy_compliance"], ["ai_service"], [("concurrent_conversations", .int 500)]⟩
      , ⟨"crm_integration", ["api_connectivity", "data_sync"], ["ai_service"], [("sync_frequency", .str "real_time")]⟩ ]
    constraints := ["ai_model_accuracy", "response_time"]
    success_metrics := ["resolution_rate", "customer_satisfaction", "escalation_rate"] }

/-- The requirements produced by the `"expense" in description` branch. -/
def expenseRequirements : Requirements :=
  { business_requirements :=
      [ ⟨"Mobile app support", 5, "functionality", ["cross_platform"]⟩
      , ⟨"Receipt photo processing", 4, "functionality", ["ocr_capability"]⟩
      , ⟨"Approval workflow", 4, "functionality", ["notification_system"]⟩
      , ⟨"Payroll integration", 3, "integration", ["secure_data_transfer"]⟩ ]
    technical_requirements :=
      [ ⟨"mobile_backend", ["rest_api", "authentication"], [], [("concurrent_users", .int 500)]⟩
      , ⟨"image_processing", ["ocr_service", "image_storage"], ["mobile_backend"], [("processing_time", .str "<5s")]⟩
      , ⟨"workflow_engine", ["approval_routing", "notifications"], ["mobile_backend"], [("approval_time", .str "<24h")]⟩
      , ⟨"payroll_integration", ["secure_api", "data_validation"], ["workflow_engine"], [("sync_frequency", .str "daily")]⟩ ]
    constraints := ["mobile_performance", "data_privacy"]
    success_metrics := ["user_adoption", "processing_accuracy", "approval_efficiency"] }

/-- `RequirementsAnalyzer.analyze_requirements`: keyword dispatch over the
lowered description (`if "ecommerce" in ... elif "chatbot" in ...
elif "expense" in ...`); when no branch matches, the initial empty dict is
returned unchanged. -/
def analyze_requirements (problem_description : String) : Requirements :=
  if pyIn "ecommerce" (pyLower problem_description) then ecommerceRequirements
  else if pyIn "chatbot" (pyLower problem_description) then chatbotRequirements
  else if pyIn "expense" (pyLower problem_description) then expenseRequirements
  else emptyRequirements

/-- Possible failures of the requirements-analysis stage named by the spec.
The Python body of `analyze_requirements` has no `raise` statement, so the
embedding with an explicit error channel always returns `ok`. -/
inductive AnalyzerError where
  | invalidInput
deriving DecidableEq, Repr

/-- `analyze_requirements` with its outcome channel made explicit: the source
method can never raise, so every input maps to `Except.ok`. -/
def analyze_requirementsE (problem_description : String) :
    Except AnalyzerError Requirements :=
  Except.ok (analyze_requirements problem_description)

/-- The category whose keyword selected the requirement branch in
`analyze_requirements` (`none` when no branch matched); this mirrors the
`if`/`elif` chain of the source one for one. -/
def detectedCategory (problem_description : String) : Option ArchitectureType :=
  if pyIn "ecommerce" (pyLower problem_description) then some ArchitectureType.ECOMMERCE
  else if pyIn "chatbot" (pyLower problem_description) then some ArchitectureType.CHATBOT
  else if pyIn "expense" (pyLower problem_description) then some ArchitectureType.EXPENSE_TRACKER
  else none

/-- `CloudArchitect._design_ecommerce_architecture`: the AWS service list, and
the bare `return []` reached for every other provider. -/
def design_ecommerce_architecture (provider : CloudProvider) : List CloudService :=
  if provider = CloudProvider.AWS then
    [ ⟨"Amazon EC2", CloudProvider.AWS, "compute", "Web application servers", "$200-500/month", "Auto Scaling", ["VPC", "Security Groups"]⟩
    , ⟨"Amazon RDS", CloudProvider.AWS, "database", "MySQL/PostgreSQL database", "$100-300/month", "Read replicas", ["Encryption at rest", "VPC"]⟩
    , ⟨"Amazon S3", CloudProvider.AWS, "storage", "Product images and static assets", "$50-150/month", "Unlimited", ["Bucket policies", "Encryption"]⟩
    , ⟨"CloudFront", CloudProvider.AWS, "networking", "CDN for global content delivery", "$20-100/month", "Global", ["DDoS protection", "SSL/TLS"]⟩
    , ⟨"Application Load Balancer", CloudProvider.AWS, "networking", "Traffic distribution and SSL termination", "$30-80/month", "Auto Scaling", ["Health checks", "SSL termination"]⟩
    , ⟨"AWS WAF", CloudProvider.AWS, "security", "Web application firewall", "$10-50/month", "Auto Scaling", ["OWASP protection", "DDoS mitigation"]⟩ ]
  else []

/-- `CloudArchitect._design_chatbot_architecture`. -/
def design_chatbot_architecture (provider : CloudProvider) : List CloudService :=
  if provider = CloudProvider.AWS then
    [ ⟨"AWS Lambda", CloudProvider.AWS, "compute", "Serverless chatbot functions", "$50-200/month", "Auto Scaling", ["IAM roles", "VPC"]⟩
    , ⟨"Amazon Lex", CloudProvider.AWS, "ai", "Natural language understanding", "$100-300/month", "Auto Scaling", ["Data encryption", "Access control"]⟩
    , ⟨"Amazon DynamoDB", CloudProvider.AWS, "database", "Conversation storage", "$80-200/month", "Auto Scaling", ["Encryption at rest", "Point-in-time recovery"]⟩
    , ⟨"Amazon API Gateway", CloudProvider.AWS, "networking", "API management", "$30-100/month", "Auto Scaling", ["API keys", "Rate limiting"]⟩
    , ⟨"Amazon SNS", CloudProvider.AWS, "messaging", "Notifications and escalations", "$20-50/month", "Auto Scaling", ["Message encryption", "Access control"]⟩ ]
  else []

/-- `CloudArchitect._design_expense_tracker_architecture`. -/
def design_expense_tracker_architecture (provider : CloudProvider) : List CloudService :=
  if provider = CloudProvider.AWS then
    [ ⟨"AWS Lambda", CloudProvider.AWS, "compute", "Serverless backend API", "$50-150/month", "Auto Scaling", ["IAM roles", "VPC"]⟩
    , ⟨"Amazon S3", CloudProvider.AWS, "storage", "Receipt image storage", "$30-100/month", "Unlimited", ["Bucket policies", "Encryption"]⟩
    , ⟨"Amazon Textract", CloudProvider.AWS, "ai", "OCR for receipt processing", "$100-300/month", "Auto Scaling", ["Data encryption", "Access control"]⟩
    , ⟨"Amazon RDS", CloudProvider.AWS, "database", "Expense data storage", "$80-200/month", "Read replicas", ["Encryption at rest", "VPC"]⟩
    , ⟨"Amazon SNS", CloudProvider.AWS, "messaging", "Approval notifications", "$20-50/month", "Auto Scaling", ["Message encryption", "Access control"]⟩ ]
  else []

/-- `CloudArchitect._get_deployment_strategy`: `high_availability` is searched
(as a substring) inside the constraint strings of the business requirements,
while `budget_conscious` is searched inside the dict-level `constraints`
list. -/
def get_deployment_strategy (requirements : Requirements) : String :=
  if requirements.business_requirements.any
      (fun req => req.constraints.any (fun c => pyIn "high_availability" c)) then
    "Blue-Green deployment with zero downtime"
  else if requirements.constraints.any (fun c => pyIn "budget_conscious" c) then
    "Rolling deployment with cost optimization"
  else
    "Canary deployment with gradual rollout"

/-- `CloudArchitect._estimate_costs` (constant text, ignores the list). -/
def estimate_costs (_services : List CloudService) : String :=
  "$500-1500/month depending on usage"

/-- `CloudArchitect._get_security_considerations`: three baseline items; a PCI
item is appended when some business requirement's constraint string contains
`PCI_DSS_compliance`, and a GDPR item when some dict-level constraint string
contains `data_privacy`. -/
def get_security_considerations (requirements : Requirements) : List String :=
  let considerations :=
    ["Data encryption in transit and at rest", "Identity and access management", "Network security"]
  let considerations :=
    if requirements.business_requirements.any
        (fun req => req.constraints.any (fun c => pyIn "PCI_DSS_compliance" c)) then
      considerations ++ ["PCI DSS compliance for payment processing"]
    else considerations
  let considerations :=
    if requirements.constraints.any (fun c => pyIn "data_privacy" c) then
      considerations ++ ["GDPR compliance for data privacy"]
    else considerations
  considerations

/-- `CloudArchitect._get_scalability_plan` (constant text). -/
def get_scalability_plan (_requirements : Requirements) : String :=
  "Auto-scaling based on demand with horizontal scaling capabilities and load balancing"

/-- `CloudArchitect._get_monitoring_strategy` (constant text). -/
def get_monitoring_strategy (_requirements : Requirements) : String :=
  "Comprehensive monitoring with CloudWatch, application performance monitoring, and alerting"

/-- `CloudArchitect.design_architecture`: service selection dispatches on
whether any business requirement's lowered description contains a category
keyword; the `architecture_type` field is hard-coded to `ECOMMERCE` (the
source comments this line `This would be determined dynamically`), and the
confidence score is the literal `0.85`. -/
def design_architecture (requirements : Requirements)
    (preferred_provider : CloudProvider) : ArchitectureRecommendation :=
  let services :=
    if requirements.business_requirements.any
        (fun req => pyIn "ecommerce" (pyLower req.description)) then
      design_ecommerce_architecture preferred_provider
    else if requirements.business_requirements.any
        (fun req => pyIn "chatbot" (pyLower req.description)) then
      design_chatbot_architecture preferred_provider
    else if requirements.business_requirements.any
        (fun req => pyIn "expense" (pyLower req.description)) then
      design_expense_tracker_architecture preferred_provider
    else []
  { architecture_type := ArchitectureType.ECOMMERCE
    services := services
    deployment_strategy := get_deployment_strategy requirements
    cost_estimate := estimate_costs services
    security_considerations := get_security_considerations requirements
    scalability_plan := get_scalability_plan requirements
    monitoring_strategy := get_monitoring_strategy requirements
    confidence_score := 85/100 }

/-- The `final_recommendation` dict compiled by
`MultiAgentOrchestrator.process_architecture_request`. -/
structure FinalRecommendation where
  problem_description : String
  requirements : Requirements
  architecture : ArchitectureRecommendation
  confidence_score : ℚ
  next_steps : List String
deriving DecidableEq, Repr

/-- `MultiAgentOrchestrator.process_architecture_request`: analysis, then
design, then compilation of the final dict; the overall confidence is
`architecture.confidence_score` copied verbatim. -/
def process_architecture_request (problem_description : String)
    (preferred_provider : CloudProvider) : FinalRecommendation :=
  let requirements := analyze_requirements problem_description
  let architecture := design_architecture requirements preferred_provider
  { problem_description := problem_description
    requirements := requirements
    architecture := architecture
    confidence_score := architecture.confidence_score
    next_steps :=
      [ "Review and approve architecture design"
      , "Set up development environment"
      , "Implement security controls"
      , "Plan deployment strategy" ] }

/-- Every constraint tag carried anywhere in a requirement set: the dict-level
`constraints` list together with each business requirement's `constraints`. -/
def allConstraintTags (reqs : Requirements) : List String :=
  reqs.constraints ++ (reqs.business_requirements.map (fun r => r.constraints)).flatten

/-- A string made only of blanks, tabs, and line breaks (the whitespace of the
descriptions the spec talks about). -/
def isWhitespaceOnly (s : String) : Bool :=
  s.data.all (fun c => c == ' ' || c == '\t' || c == '\n' || c == '\r')

theorem pyInChars_subset {n h : List Char} (hin : pyInChars n h = true) :
    ∀ a ∈ n, a ∈ h := by
  induction h with
  | nil =>
    rw [pyInChars, List.isPrefixOf_iff_prefix] at hin
    intro a ha
    exact absurd (hin.sublist.subset ha) (List.not_mem_nil a)
  | cons c cs ih =>
    rw [pyInChars, Bool.or_eq_true] at hin
    intro a ha
    cases hin with
    | inl hpre =>
      rw [List.isPrefixOf_iff_prefix] at hpre
      exact hpre.sublist.subset ha
    | inr htail => exact List.mem_cons_of_mem c (ih htail a ha)

theorem pyIn_false_of_ws {d : String} (hws : isWhitespaceOnly d = true)
    {n : String} {a : Char} (ha : a ∈ n.data)
    (h1 : a ≠ ' ') (h2 : a ≠ '\t') (h3 : a ≠ '\n') (h4 : a ≠ '\r') :
    pyIn n (pyLower d) = false := by
  rw [← Bool.not_eq_true]
  intro hcontra
  have hmem : a ∈ (pyLower d).data := pyInChars_subset hcontra a ha
  rw [pyLower] at hmem
  simp only [List.mem_map] at hmem
  obtain ⟨c, hc, hlow⟩ := hmem
  rw [isWhitespaceOnly, List.all_eq_true] at hws
  have := hws c hc
  simp only [Bool.or_eq_true, beq_iff_eq] at this
  rcases this with ((h | h) | h) | h <;> subst h
  · exact h1 (by rw [← hlow]; decide)
  · exact h2 (by rw [← hlow]; decide)
  · exact h3 (by rw [← hlow]; decide)
  · exact h4 (by rw [← hlow]; decide)

theorem keywords_false_of_ws {d : String} (hws : isWhitespaceOnly d = true) :
    pyIn "ecommerce" (pyLower d) = false ∧
    pyIn "chatbot" (pyLower d) = false ∧
    pyIn "expense" (pyLower d) = false :=
  ⟨ pyIn_false_of_ws hws (n := "ecommerce") (a := 'e') (by decide)
      (by decide) (by decide) (by decide) (by decide)
  , pyIn_false_of_ws hws (n := "chatbot") (a := 'c') (by decide)
      (by decide) (by decide) (by decide) (by decide)
  , pyIn_false_of_ws hws (n := "expense") (a := 'e') (by decide)
      (by decide) (by decide) (by decide) (by decide) ⟩

theorem keywords_false_of_detected_none {d : String}
    (h : detectedCategory d = none) :
    pyIn "ecommerce" (pyLower d) = false ∧
    pyIn "chatbot" (pyLower d) = false ∧
    pyIn "expense" (pyLower d) = false := by
  cases he : pyIn "ecommerce" (pyLower d) <;>
    cases hc : pyIn "chatbot" (pyLower d) <;>
      cases hx : pyIn "expense" (pyLower d) <;>
        simp [detectedCategory, he, hc, hx] at h ⊢

/-- The problem description of claim C1's failing input: it takes the chatbot
branch of `analyze_requirements`. -/
def chatbotDescription : String := "Customer support chatbot with CRM integration"

/-- C1: the category label on the synthesized recommendation does not equal
the category that selected the requirement branch: for a description whose
chatbot branch produced the requirements, `design_architecture` still labels
the result `ECOMMERCE` (the field is hard-coded; the source's own comment on
that line reads `This would be determined dynamically`). -/
theorem C1_architecture_type_hardcoded :
    detectedCategory chatbotDescription = some ArchitectureType.CHATBOT ∧
    analyze_requirements chatbotDescription = chatbotRequirements ∧
    (design_architecture (analyze_requirements chatbotDescription)
        CloudProvider.AWS).architecture_type = ArchitectureType.ECOMMERCE ∧
    ArchitectureType.ECOMMERCE ≠ ArchitectureType.CHATBOT := by
  refine ⟨by decide, by decide, rfl, by decide⟩

/-- C9: the pipeline is deterministic — two runs on identical description and
provider inputs produce identical `FinalRecommendation` records (the embedded
pipeline is a pure function; the source's only side effect is logging). -/
theorem C9_deterministic (d₁ d₂ : String) (p₁ p₂ : CloudProvider)
    (hd : d₁ = d₂) (hp : p₁ = p₂) :
    process_architecture_request d₁ p₁ = process_architecture_request d₂ p₂ := by
  rw [hd, hp]

/-- C9 witness: determinism instantiated at a concrete input. -/
theorem C9_deterministic_witness :
    process_architecture_request "ecommerce shop" CloudProvider.AWS =
      process_architecture_request "ecommerce shop" CloudProvider.AWS :=
  C9_deterministic "ecommerce shop" "ecommerce shop"
    CloudProvider.AWS CloudProvider.AWS rfl rfl

/-- A requirement set whose only constraint tag is the dict-level
`high_availability` (no business requirement carries any tag). -/
def haOnlyRequirements : Requirements :=
  { business_requirements := []
    technical_requirements := []
    constraints := ["high_availability"]
    success_metrics := [] }

/-- C2 counterexample: a requirement set carrying the `high_availability`
constraint tag (at the set level) is not given the blue-green strategy —
`_get_deployment_strategy` looks for `high_availability` only inside the
business requirements' constraint lists, so this set gets canary. -/
theorem C2_counterexample :
    ¬ (("high_availability" ∈ allConstraintTags haOnlyRequirements) →
        get_deployment_strategy haOnlyRequirements =
          "Blue-Green deployment with zero downtime") := by
  intro h
  exact absurd (h (by decide)) (by decide)

/-- C2 (amended): the precedence rule holds once each tag is located where the
code searches for it — blue-green when some business requirement's constraint
string contains `high_availability`; otherwise rolling with cost optimization
when some set-level constraint string contains `budget_conscious`; otherwise
canary. -/
theorem C2_deployment_strategy_precedence (reqs : Requirements) :
    ((∃ r ∈ reqs.business_requirements, ∃ c ∈ r.constraints,
        pyIn "high_availability" c = true) →
      get_deployment_strategy reqs = "Blue-Green deployment with zero downtime") ∧
    ((¬ ∃ r ∈ reqs.business_requirements, ∃ c ∈ r.constraints,
        pyIn "high_availability" c = true) →
      (∃ c ∈ reqs.constraints, pyIn "budget_conscious" c = true) →
      get_deployment_strategy reqs = "Rolling deployment with cost optimization") ∧
    ((¬ ∃ r ∈ reqs.business_requirements, ∃ c ∈ r.constraints,
        pyIn "high_availability" c = true) →
      (¬ ∃ c ∈ reqs.constraints, pyIn "budget_conscious" c = true) →
      get_deployment_strategy reqs = "Canary deployment with gradual rollout") := by
  have hA : (reqs.business_requirements.any
      (fun req => req.constraints.any (fun c => pyIn "high_availability" c)) = true) ↔
      ∃ r ∈ reqs.business_requirements, ∃ c ∈ r.constraints,
        pyIn "high_availability" c = true := by
    simp [List.any_eq_true]
  have hB : (reqs.constraints.any (fun c => pyIn "budget_conscious" c) = true) ↔
      ∃ c ∈ reqs.constraints, pyIn "budget_conscious" c = true := by
    simp [List.any_eq_true]
  refine ⟨?_, ?_, ?_⟩
  · intro hex
    rw [get_deployment_strategy, if_pos (hA.mpr hex)]
  · intro hnex hex
    rw [get_deployment_strategy, if_neg (fun hc => hnex (hA.mp hc)),
      if_pos (hB.mpr hex)]
  · intro hnex hnex2
    rw [get_deployment_strategy, if_neg (fun hc => hnex (hA.mp hc)),
      if_neg (fun hc => hnex2 (hB.mp hc))]

/-- C2 witness: the e-commerce requirement set carries `high_availability` on
its first business requirement, so the amended rule yields blue-green. -/
theorem C2_deployment_strategy_precedence_witness :
    get_deployment_strategy ecommerceRequirements =
      "Blue-Green deployment with zero downtime" :=
  (C2_deployment_strategy_precedence ecommerceRequirements).1
    ⟨⟨"Handle 1000 daily users", 5, "scalability", ["high_availability"]⟩,
      by decide, "high_availability", by decide, by decide⟩

/-- C3 counterexample: the empty description is whitespace-only, yet the
analysis stage does not fail with `InvalidInput` — the source method has no
input validation and no `raise` path. -/
theorem C3_counterexample :
    ¬ (isWhitespaceOnly "" = true →
        analyze_requirementsE "" = Except.error AnalyzerError.invalidInput) := by
  intro h
  have h2 := h (by decide)
  simp [analyze_requirementsE] at h2

/-- C3 (amended): an empty or whitespace-only description is not rejected —
analysis silently succeeds, returning the all-empty requirements dict (no
keyword branch can match a whitespace-only description). -/
theorem C3_whitespace_not_rejected (d : String)
    (h : isWhitespaceOnly d = true) :
    analyze_requirementsE d = Except.ok emptyRequirements := by
  obtain ⟨he, hc, hx⟩ := keywords_false_of_ws h
  rw [analyze_requirementsE, analyze_requirements, if_neg, if_neg, if_neg]
  · rw [hx]; exact Bool.false_ne_true
  · rw [hc]; exact Bool.false_ne_true
  · rw [he]; exact Bool.false_ne_true

/-- C3 witness: a concrete whitespace-only description. -/
theorem C3_whitespace_not_rejected_witness :
    analyze_requirementsE "   " = Except.ok emptyRequirements :=
  C3_whitespace_not_rejected "   " (by decide)

/-- The unmatched description of the spec's fallback end-to-end scenario. -/
def garbageDescription : String := "asdkj qpwoe random text"

/-- C4 counterexample: on the spec's own unmatched-input scenario the final
recommendation's confidence is 0.85, not at most 0.3 — the pipeline carries
no unknown-category fallback, no completeness flag, and no lowered
confidence. -/
theorem C4_counterexample :
    ¬ (detectedCategory garbageDescription = none →
        (process_architecture_request garbageDescription
            CloudProvider.AWS).confidence_score ≤ 3/10) := by
  intro h
  have h2 := h (by decide)
  rw [show (process_architecture_request garbageDescription
      CloudProvider.AWS).confidence_score = 85/100 from rfl] at h2
  norm_num at h2

/-- C4 (amended): when no category keyword matches, the pipeline indeed never
aborts, but analysis returns the all-empty requirements dict (not a generic
fallback template), synthesis returns an empty service list with the canary
strategy, the recommendation is still labelled `ECOMMERCE`, and the overall
confidence is the unconditional 0.85 (there is no completeness flag and no
unknown category anywhere in the code). -/
theorem C4_unmatched_fallback (d : String) (p : CloudProvider)
    (h : detectedCategory d = none) :
    analyze_requirements d = emptyRequirements ∧
    (process_architecture_request d p).requirements = emptyRequirements ∧
    (process_architecture_request d p).architecture.services = [] ∧
    (process_architecture_request d p).architecture.deployment_strategy =
      "Canary deployment with gradual rollout" ∧
    (process_architecture_request d p).architecture.architecture_type =
      ArchitectureType.ECOMMERCE ∧
    (process_architecture_request d p).confidence_score = 85/100 := by
  obtain ⟨he, hc, hx⟩ := keywords_false_of_detected_none h
  have hA : analyze_requirements d = emptyRequirements := by
    rw [analyze_requirements, he, hc, hx]
    rfl
  refine ⟨hA, ?_, ?_, ?_, rfl, rfl⟩ <;>
    simp [process_architecture_request, hA, design_architecture,
      get_deployment_strategy, emptyRequirements]

/-- C4 witness: the fallback behaviour at the spec's concrete scenario. -/
theorem C4_unmatched_fallback_witness :
    analyze_requirements garbageDescription = emptyRequirements ∧
    (process_architecture_request garbageDescription CloudProvider.AWS).requirements =
      emptyRequirements ∧
    (process_architecture_request garbageDescription
        CloudProvider.AWS).architecture.services = [] ∧
    (process_architecture_request garbageDescription
        CloudProvider.AWS).architecture.deployment_strategy =
      "Canary deployment with gradual rollout" ∧
    (process_architecture_request garbageDescription
        CloudProvider.AWS).architecture.architecture_type =
      ArchitectureType.ECOMMERCE ∧
    (process_architecture_request garbageDescription
        CloudProvider.AWS).confidence_score = 85/100 :=
  C4_unmatched_fallback garbageDescription CloudProvider.AWS (by decide)

/-- C5 counterexample: for the e-commerce category with provider Azure (for
which the catalog has no entry), synthesis does not substitute the default
provider's list nor lower confidence to 0.5 — the confidence stays 0.85. -/
theorem C5_counterexample :
    ¬ ((design_architecture ecommerceRequirements CloudProvider.AZURE).services =
        design_ecommerce_architecture CloudProvider.AWS ∧
      (design_architecture ecommerceRequirements
          CloudProvider.AZURE).confidence_score = 1/2) := by
  intro h
  have h2 := h.2
  rw [show (design_architecture ecommerceRequirements
      CloudProvider.AZURE).confidence_score = 85/100 from rfl] at h2
  norm_num at h2

/-- C5 (amended): for every requirement set and every provider other than AWS,
synthesis returns an empty service list, the deployment-strategy text is the
unannotated one computed from the constraints alone, and the confidence keeps
its default 0.85 — no fallback to the default provider's catalog occurs. -/
theorem C5_no_provider_fallback (reqs : Requirements) (p : CloudProvider)
    (hp : p ≠ CloudProvider.AWS) :
    (design_architecture reqs p).services = [] ∧
    (design_architecture reqs p).deployment_strategy =
      get_deployment_strategy reqs ∧
    (design_architecture reqs p).confidence_score = 85/100 := by
  have e1 : design_ecommerce_architecture p = [] := by
    rw [design_ecommerce_architecture, if_neg hp]
  have e2 : design_chatbot_architecture p = [] := by
    rw [design_chatbot_architecture, if_neg hp]
  have e3 : design_expense_tracker_architecture p = [] := by
    rw [design_expense_tracker_architecture, if_neg hp]
  refine ⟨?_, rfl, rfl⟩
  show (if _ then design_ecommerce_architecture p
    else if _ then design_chatbot_architecture p
    else if _ then design_expense_tracker_architecture p
    else []) = []
  rw [e1, e2, e3]
  simp

/-- C5 witness: the e-commerce requirement set with provider Azure. -/
theorem C5_no_provider_fallback_witness :
    (design_architecture ecommerceRequirements CloudProvider.AZURE).services = [] ∧
    (design_architecture ecommerceRequirements CloudProvider.AZURE).deployment_strategy =
      get_deployment_strategy ecommerceRequirements ∧
    (design_architecture ecommerceRequirements CloudProvider.AZURE).confidence_score =
      85/100 :=
  C5_no_provider_fallback ecommerceRequirements CloudProvider.AZURE (by decide)

/-- A description containing the e-commerce keyword the classifier looks for
(the spec's literal scenario text contains none of the keywords, so the
keyword is made explicit here). -/
def ecommerceDescription : String :=
  "ecommerce online store for small business with product catalog, shopping cart, payment processing, admin dashboard"

/-- C7 counterexample: the e-commerce end-to-end run yields no compute service
at all (the service dispatch in `design_architecture` matches category
keywords against the business requirements' descriptions, none of which
contains one) and its strategy is not rolling with cost optimization. -/
theorem C7_counterexample :
    ¬ ((∃ s ∈ (process_architecture_request ecommerceDescription
          CloudProvider.AWS).architecture.services, s.service_type = "compute") ∧
      (process_architecture_request ecommerceDescription
          CloudProvider.AWS).architecture.deployment_strategy =
        "Rolling deployment with cost optimization") := by
  intro h
  obtain ⟨⟨s, hs, _⟩, _⟩ := h
  rw [show (process_architecture_request ecommerceDescription
      CloudProvider.AWS).architecture.services = [] from by decide] at hs
  exact List.not_mem_nil s hs

/-- C7 (amended): the e-commerce run classifies the description into the
e-commerce requirement set and reports confidence 0.85 (≥ 0.8) with the
(hard-coded) e-commerce label, but the service list is empty and the
deployment strategy is blue-green, since the extracted e-commerce
requirements carry the `high_availability` constraint. -/
theorem C7_ecommerce_run :
    (process_architecture_request ecommerceDescription
        CloudProvider.AWS).requirements = ecommerceRequirements ∧
    (process_architecture_request ecommerceDescription
        CloudProvider.AWS).architecture.architecture_type =
      ArchitectureType.ECOMMERCE ∧
    (process_architecture_request ecommerceDescription
        CloudProvider.AWS).architecture.services = [] ∧
    (process_architecture_request ecommerceDescription
        CloudProvider.AWS).architecture.deployment_strategy =
      "Blue-Green deployment with zero downtime" ∧
    (process_architecture_request ecommerceDescription
        CloudProvider.AWS).confidence_score = 85/100 := by
  exact ⟨by decide, rfl, by decide, by decide, rfl⟩

/-- A requirement set whose only constraint tag is the dict-level
`PCI_DSS_compliance`. -/
def pciOnlyRequirements : Requirements :=
  { business_requirements := []
    technical_requirements := []
    constraints := ["PCI_DSS_compliance"]
    success_metrics := [] }

/-- C8 counterexample: a requirement set carrying the PCI-DSS constraint tag
(at the set level) does not receive the payment-compliance item —
`_get_security_considerations` looks for `PCI_DSS_compliance` only inside the
business requirements' constraint lists. -/
theorem C8_counterexample :
    ¬ (("PCI_DSS_compliance" ∈ allConstraintTags pciOnlyRequirements) →
        "PCI DSS compliance for payment processing" ∈
          get_security_considerations pciOnlyRequirements) := by
  intro h
  exact absurd (h (by decide)) (by decide)

/-- C8 (amended): the three baseline items are always present; the
payment-compliance item appears exactly when some business requirement's
constraint string contains `PCI_DSS_compliance`, the privacy item exactly
when some set-level constraint string contains `data_privacy`; the list never
holds duplicates and is always a sublist of the fixed five-item sequence
baseline-then-PCI-then-GDPR, which pins the baseline-PCI-GDPR order. -/
theorem C8_security_considerations (reqs : Requirements) :
    ("Data encryption in transit and at rest" ∈ get_security_considerations reqs ∧
      "Identity and access management" ∈ get_security_considerations reqs ∧
      "Network security" ∈ get_security_considerations reqs) ∧
    ("PCI DSS compliance for payment processing" ∈ get_security_considerations reqs ↔
      ∃ r ∈ reqs.business_requirements, ∃ c ∈ r.constraints,
        pyIn "PCI_DSS_compliance" c = true) ∧
    ("GDPR compliance for data privacy" ∈ get_security_considerations reqs ↔
      ∃ c ∈ reqs.constraints, pyIn "data_privacy" c = true) ∧
    (get_security_considerations reqs).Nodup ∧
    (get_security_considerations reqs).Sublist
      ["Data encryption in transit and at rest", "Identity and access management",
        "Network security", "PCI DSS compliance for payment processing",
        "GDPR compliance for data privacy"] := by
  have hA : (reqs.business_requirements.any
      (fun req => req.constraints.any (fun c => pyIn "PCI_DSS_compliance" c)) = true) ↔
      ∃ r ∈ reqs.business_requirements, ∃ c ∈ r.constraints,
        pyIn "PCI_DSS_compliance" c = true := by
    simp [List.any_eq_true]
  have hB : (reqs.constraints.any (fun c => pyIn "data_privacy" c) = true) ↔
      ∃ c ∈ reqs.constraints, pyIn "data_privacy" c = true := by
    simp [List.any_eq_true]
  rw [get_security_considerations]
  by_cases hp : reqs.business_requirements.any
      (fun req => req.constraints.any (fun c => pyIn "PCI_DSS_compliance" c)) = true <;>
    by_cases hg : reqs.constraints.any (fun c => pyIn "data_privacy" c) = true <;>
      simp only [hp, hg, if_pos, if_neg, if_true, if_false,
        eq_self_iff_true, Bool.not_eq_true] <;>
      rw [← hA, ← hB] <;>
      refine ⟨by simp [hp, hg], by simp [hp, hg], by simp [hp, hg],
        by decide, by decide⟩

/-- C8 witness: the e-commerce requirement set carries `PCI_DSS_compliance` on
a business requirement, so the payment item is present. -/
theorem C8_security_considerations_witness :
    "PCI DSS compliance for payment processing" ∈
      get_security_considerations ecommerceRequirements :=
  ((C8_security_considerations ecommerceRequirements).2.1).mpr
    ⟨⟨"Secure payment processing", 5, "security", ["PCI_DSS_compliance"]⟩,
      by decide, "PCI_DSS_compliance", by decide, by decide⟩

/-- The fixed order in which `analyze_requirements` tests the category
keywords. -/
def categoryOrder : List ArchitectureType :=
  [ArchitectureType.ECOMMERCE, ArchitectureType.CHATBOT,
    ArchitectureType.EXPENSE_TRACKER]

/-- The keyword whose presence in the lowered description selects each
category's branch. -/
def categoryKeyword : ArchitectureType → String
  | ArchitectureType.ECOMMERCE => "ecommerce"
  | ArchitectureType.CHATBOT => "chatbot"
  | ArchitectureType.EXPENSE_TRACKER => "expense"

/-- The requirement set each category's branch produces. -/
def requirementsFor : ArchitectureType → Requirements
  | ArchitectureType.ECOMMERCE => ecommerceRequirements
  | ArchitectureType.CHATBOT => chatbotRequirements
  | ArchitectureType.EXPENSE_TRACKER => expenseRequirements

/-- C10: category detection is first-match-wins over the fixed order
e-commerce, chatbot, expense-tracker — whenever `cat` is the first category
(in that order) whose keyword occurs in the lowered description, analysis
returns exactly that category's requirement set, regardless of any later
keyword also matching. -/
theorem C10_first_match_wins (d : String) (cat : ArchitectureType)
    (h : (categoryOrder.filter
        (fun c => pyIn (categoryKeyword c) (pyLower d))).head? = some cat) :
    analyze_requirements d = requirementsFor cat := by
  cases he : pyIn "ecommerce" (pyLower d) <;>
    cases hc : pyIn "chatbot" (pyLower d) <;>
      cases hx : pyIn "expense" (pyLower d) <;>
        simp only [categoryOrder, categoryKeyword, List.filter, he, hc, hx,
          List.head?, Option.some.injEq] at h <;>
        first
          | exact Option.noConfusion h
          | simp [analyze_requirements, he, hc, hx, ← h, requirementsFor]

/-- C10 witness: a description containing both the e-commerce and the chatbot
keyword yields the e-commerce requirement set. -/
theorem C10_first_match_wins_witness :
    analyze_requirements "ecommerce chatbot" =
      requirementsFor ArchitectureType.ECOMMERCE :=
  C10_first_match_wins "ecommerce chatbot" ArchitectureType.ECOMMERCE (by decide)

end CloudPlanning
